import Mathlib

/-
Verification development for the IRISC-OBSW attitude-control core.

Shallow embedding of:
  * the dual-axis PID controller (src/src/tracking/target_selecting/target_selecting.c,
    functions init_pid, pid_update, motor_control_step, change_pid_values,
    change_mode_pid_values, change_stabilization_mode, pid_reset),
  * the gyroscope poller's datagram decoding (src/unnamed/part_000, active_m),
  * the mode registry (init_mode / set_mode / get_mode).

C doubles are modelled as rationals (exact arithmetic); the only place where
IEEE-754 semantics matters to control flow is the division by a zero integral
gain in the anti-windup stage, which is modelled explicitly (see anti_windup).
Wall-clock time fields, mutexes and logging are I/O and are not modelled; the
values the C code derives from them (the fixed control timestep
stabilization_timestep and the steps-per-degree factor step_per_deg) are
parameters of the embedding.
-/

namespace IRISC

/-! ## PID controller data model (target_selecting.c) -/

/-- `pid_values_t`: the gain set for one axis (pid.h / target_selecting.c). -/
structure pid_values_t where
  kp : ℚ
  ki : ℚ
  kd : ℚ
  deriving DecidableEq, Repr

/-- `control_variables_t`: per-axis controller state. The `time_in_seconds`
field of the C struct is wall-clock time used only for logging and the disabled
dynamic-timestep experiment; it is omitted. -/
structure control_variables_t where
  current_position : ℚ
  target_position : ℚ
  position_error : ℚ
  integral : ℚ
  derivative : ℚ
  pid_output : ℚ
  deriving DecidableEq, Repr

/-- `motor_step_t`: the emitted motor step command (az, alt), integers. -/
structure motor_step_t where
  az : ℤ
  alt : ℤ
  deriving DecidableEq, Repr

/-- `max_motor_ang = 35 / step_per_deg`, computed in init_pid (line 137). -/
def max_motor_ang (spd : ℚ) : ℚ := 35 / spd

/-- `max_change_rate = 5 / step_per_deg`, computed in init_pid (line 138). -/
def max_change_rate (spd : ℚ) : ℚ := 5 / spd

/-- `motor_control_step` (lines 306-324): error, integral, derivative and raw
PID output for one axis. `ts` is the fixed `stabilization_timestep`. -/
def motor_control_step (pid : pid_values_t) (ts : ℚ)
    (prev : control_variables_t) (cur_pos tgt_pos : ℚ) : control_variables_t :=
  let e := tgt_pos - cur_pos
  let i := prev.integral + e * ts
  let d := (e - prev.position_error) / ts
  { current_position := cur_pos
    target_position := tgt_pos
    position_error := e
    integral := i
    derivative := d
    pid_output := pid.kp * e + pid.ki * i + pid.kd * d }

/-- Anti-windup clamp (lines 192-206): clamp the integral accumulator to
`±(max_motor_ang / ki)`.  In the C source the bound is an IEEE double; when
`ki = 0` the bound is `±inf` (for `maxAng > 0`), both comparisons are false and
the accumulator is left unchanged, which the first branch models explicitly. -/
def anti_windup (maxAng ki i : ℚ) : ℚ :=
  if ki = 0 then i
  else if i > maxAng / ki then maxAng / ki
  else if i < -(maxAng / ki) then -(maxAng / ki)
  else i

/-- Output change-rate limiter (lines 209-226). -/
def rate_limit (mcr prev_out out : ℚ) : ℚ :=
  if |out - prev_out| > mcr then
    if out > prev_out then prev_out + mcr else prev_out - mcr
  else out

/-- Azimuth output saturation (lines 228-236): clamps and records the
`threshold` diagnostic code (0 none, 1 positive bound, 2 negative bound). -/
def saturate_az (maxAng out : ℚ) : ℚ × ℤ :=
  if out > maxAng then (maxAng, 1)
  else if out < -maxAng then (-maxAng, 2)
  else (out, 0)

/-- Altitude output saturation (lines 240-244): clamps but, unlike the azimuth
branch, records no diagnostic code. -/
def saturate_alt (maxAng out : ℚ) : ℚ :=
  if out > maxAng then maxAng
  else if out < -maxAng then -maxAng
  else out

/-- C `lround`: round to nearest, halfway cases away from zero. -/
def lround (x : ℚ) : ℤ := if 0 ≤ x then ⌊x + 1 / 2⌋ else ⌈x - 1 / 2⌉

/-- All inputs of one `pid_update` invocation: the static configuration set in
init_pid (`spd` = step_per_deg, `ts` = stabilization_timestep), the active gain
sets, the stored previous control variables of each axis, the
`first_iteration` flag, and the attitude / tracking-angle inputs. -/
structure pid_input where
  spd : ℚ
  ts : ℚ
  az_pid : pid_values_t
  alt_pid : pid_values_t
  az_prev : control_variables_t
  alt_prev : control_variables_t
  first : Bool
  cur_az : ℚ
  cur_alt : ℚ
  tgt_az : ℚ
  tgt_alt : ℚ
  deriving DecidableEq, Repr

/-- The `first_iteration` branch (lines 172-180) zeroes the previous position
error (the time-field writes are wall-clock only and not modelled). -/
def az_prev_eff (inp : pid_input) : control_variables_t :=
  if inp.first then { inp.az_prev with position_error := 0 } else inp.az_prev

/-- Altitude analogue of `az_prev_eff`. -/
def alt_prev_eff (inp : pid_input) : control_variables_t :=
  if inp.first then { inp.alt_prev with position_error := 0 } else inp.alt_prev

/-- Azimuth state after `motor_control_step` (line 187). -/
def az_pass1 (inp : pid_input) : control_variables_t :=
  motor_control_step inp.az_pid inp.ts (az_prev_eff inp) inp.cur_az inp.tgt_az

/-- Altitude state after `motor_control_step` (line 189). -/
def alt_pass1 (inp : pid_input) : control_variables_t :=
  motor_control_step inp.alt_pid inp.ts (alt_prev_eff inp) inp.cur_alt inp.tgt_alt

/-- Azimuth state after the anti-windup stage (lines 192-198): the bound uses
the azimuth gain set's ki. -/
def az_windup (inp : pid_input) : control_variables_t :=
  { az_pass1 inp with
    integral := anti_windup (max_motor_ang inp.spd) inp.az_pid.ki (az_pass1 inp).integral }

/-- Altitude state after the anti-windup stage (lines 200-206).  The C source
clamps the altitude integral with `current_az_pid_values.ki` — the AZIMUTH
axis's integral gain — not the altitude one; the embedding reproduces that. -/
def alt_windup (inp : pid_input) : control_variables_t :=
  { alt_pass1 inp with
    integral := anti_windup (max_motor_ang inp.spd) inp.az_pid.ki (alt_pass1 inp).integral }

/-- Azimuth state after the rate-limiting stage (lines 209-216), relative to
the stored previous output `az_prev_control_vars.pid_output`. -/
def az_rate (inp : pid_input) : control_variables_t :=
  { az_windup inp with
    pid_output :=
      rate_limit (max_change_rate inp.spd) inp.az_prev.pid_output (az_windup inp).pid_output }

/-- Altitude state after the rate-limiting stage (lines 219-226). -/
def alt_rate (inp : pid_input) : control_variables_t :=
  { alt_windup inp with
    pid_output :=
      rate_limit (max_change_rate inp.spd) inp.alt_prev.pid_output (alt_windup inp).pid_output }

/-- Azimuth state after saturation (lines 228-236). -/
def az_sat (inp : pid_input) : control_variables_t :=
  { az_rate inp with
    pid_output := (saturate_az (max_motor_ang inp.spd) (az_rate inp).pid_output).1 }

/-- The `threshold` diagnostic code recorded by the step (reset to 0 at line
228, written only by the azimuth saturation branch). -/
def az_threshold (inp : pid_input) : ℤ :=
  (saturate_az (max_motor_ang inp.spd) (az_rate inp).pid_output).2

/-- Altitude state after saturation (lines 240-244). -/
def alt_sat (inp : pid_input) : control_variables_t :=
  { alt_rate inp with
    pid_output := saturate_alt (max_motor_ang inp.spd) (alt_rate inp).pid_output }

/-- Steps conversion (lines 251-252): `lround(step_per_deg * pid_output)`,
computed from the post-saturation, pre-deadband outputs. -/
def motor_out (inp : pid_input) : motor_step_t :=
  { az := lround (inp.spd * (az_sat inp).pid_output)
    alt := lround (inp.spd * (alt_sat inp).pid_output) }

/-- Azimuth state after the deadband (lines 255-257), applied after the steps
conversion. -/
def az_final (inp : pid_input) : control_variables_t :=
  if |(az_sat inp).position_error| < 0.02 then { az_sat inp with pid_output := 0 }
  else az_sat inp

/-- Altitude state after the deadband (lines 260-262). -/
def alt_final (inp : pid_input) : control_variables_t :=
  if |(alt_sat inp).position_error| < 0.02 then { alt_sat inp with pid_output := 0 }
  else alt_sat inp

/-- Result of one `pid_update` step: the control variables stored back as
"previous" for each axis (lines 278-279), the emitted motor command, and the
recorded saturation code. -/
structure pid_update_result where
  az : control_variables_t
  alt : control_variables_t
  motor : motor_step_t
  threshold : ℤ
  deriving DecidableEq, Repr

/-- `pid_update` (lines 148-291) as a pure step function. -/
def pid_update (inp : pid_input) : pid_update_result :=
  { az := az_final inp
    alt := alt_final inp
    motor := motor_out inp
    threshold := az_threshold inp }

/-! ## Gain store and regime transitions (target_selecting.c) -/

/-- The stabilization gain set (lines 65-74, identical for both axes). -/
def stab_pid_values : pid_values_t := { kp := 0.0673, ki := 0.05, kd := 0.0152 }

/-- The default tracking azimuth gain set (lines 77-81). -/
def track_az_pid_values : pid_values_t := { kp := 0.1, ki := 0.01, kd := 1 }

/-- The default tracking altitude gain set (lines 82-86). -/
def track_alt_pid_values : pid_values_t := { kp := 1, ki := 0.2, kd := 0 }

/-- The gain-store state: per-axis active gain sets plus the persistent
tracking and stabilization gain sets. -/
structure gain_store where
  current_az : pid_values_t
  current_alt : pid_values_t
  stab_az : pid_values_t
  stab_alt : pid_values_t
  track_az : pid_values_t
  track_alt : pid_values_t
  deriving DecidableEq, Repr

/-- `change_stabilization_mode` (lines 409-436): on_off = 1 activates the
stored stabilization gains, 0 the stored tracking gains, anything else is
rejected with status 1 and no mutation. -/
def change_stabilization_mode (on_off : ℤ) (g : gain_store) : gain_store × ℤ :=
  if on_off = 1 then
    ({ g with current_az := g.stab_az, current_alt := g.stab_alt }, 0)
  else if on_off = 0 then
    ({ g with current_az := g.track_az, current_alt := g.track_alt }, 0)
  else
    (g, 1)

/-- `change_pid_values` (lines 332-351): transient override of one axis's
active gain set; motor_id 1 = azimuth, 2 = altitude, otherwise rejected. -/
def change_pid_values (motor_id : ℤ) (p i d : ℚ) (g : gain_store) : gain_store × ℤ :=
  if motor_id = 1 then ({ g with current_az := { kp := p, ki := i, kd := d } }, 0)
  else if motor_id = 2 then ({ g with current_alt := { kp := p, ki := i, kd := d } }, 0)
  else (g, 1)

/-! ## Gyroscope poller (src/unnamed/part_000) -/

/-- `gyro_t` (sensors.h): the shared gyroscope reading. The C `out_of_date`
char is modelled as a Bool. -/
structure gyro_t where
  x : ℚ
  y : ℚ
  z : ℚ
  out_of_date : Bool
  deriving DecidableEq, Repr

/-- The state touched by one sampling cycle: the shared protected reading and
the separately published temperature. -/
structure gyro_shared where
  gyro : gyro_t
  temp : ℚ
  deriving DecidableEq, Repr

/-- Modelled from the spec: `set_gyro` (sensors.c, not in src) overwrites the
three axis fields of the protected reading and clears the out-of-date flag. -/
def set_gyro (s : gyro_shared) (x y z : ℚ) : gyro_shared :=
  { s with gyro := { x := x, y := y, z := z, out_of_date := false } }

/-- Modelled from the spec: `gyro_out_of_date` (sensors.c, not in src) sets the
out-of-date flag and leaves the last known-good fields untouched. -/
def gyro_out_of_date (s : gyro_shared) : gyro_shared :=
  { s with gyro := { s.gyro with out_of_date := true } }

/-- Modelled from the spec: `set_gyro_temp` (sensors.c, not in src) publishes
the temperature through its own accessor. -/
def set_gyro_temp (s : gyro_shared) (t : ℚ) : gyro_shared :=
  { s with temp := t }

/-- Reinterpretation of a 32-bit pattern as a signed int32 (the C
`*(int32_t*)buffer`). -/
def toInt32 (n : ℕ) : ℤ :=
  if n % 2 ^ 32 < 2 ^ 31 then (n % 2 ^ 32 : ℤ) else (n % 2 ^ 32 : ℤ) - 2 ^ 32

/-- Reinterpretation of a 16-bit pattern as a signed int16 (the C
`*(int16_t*)buffer`). -/
def toInt16 (n : ℕ) : ℤ :=
  if n % 2 ^ 16 < 2 ^ 15 then (n % 2 ^ 16 : ℤ) else (n % 2 ^ 16 : ℤ) - 2 ^ 16

/-- The sign-extension byte `(msb & 0x80) ? 0xFF : 0x00` (line 198). -/
def sign_ext_byte (b : ℕ) : ℕ := if b &&& 128 ≠ 0 then 255 else 0

/-- Byte reassembly of one 24-bit channel sample (lines 193-199): the little
endian buffer is (lsb, mid, msb, sign-extension byte), reinterpreted as a
signed 32-bit integer.  `msb` is `data[1+3*ii]`, `mid` is `data[2+3*ii]`,
`lsb` is `data[3+3*ii]`. -/
def decode_channel (msb mid lsb : ℕ) : ℤ :=
  toInt32 (lsb + 256 * mid + 65536 * msb + 16777216 * sign_ext_byte msb)

/-- One channel's physical rate: the decoded sample scaled by 16384 (line 199;
the double division is exact, so rational division models it). -/
def rate_of (msb mid lsb : ℕ) : ℚ := (decode_channel msb mid lsb : ℚ) / 16384

/-- The decoded temperature (lines 210-214): int16 from bytes data[12] (lsb)
and data[11] (msb), scaled by 256. -/
def temp_of (msb lsb : ℕ) : ℚ := (toInt16 (lsb + 256 * msb) : ℚ) / 256

/-- Encoding of a signed 24-bit integer as the three datagram bytes
(msb, mid, lsb): its two's-complement 24-bit pattern split big-endian-first. -/
def encode24 (v : ℤ) : ℕ × ℕ × ℕ :=
  let n := (v % 2 ^ 24).toNat
  (n / 65536, n / 256 % 256, n % 256)

/-- The validation and decode part of one sampling cycle `active_m`
(lines 176-221), as a function of the 27 received datagram bytes
(`data : ℕ → ℕ`, index to byte value) on the shared gyroscope state.  The
hardware interaction (trigger pulse, UART sync and reads, lines 149-174) is
the acquisition of `data` and is not modelled; logging is I/O and omitted. -/
def active_m (data : ℕ → ℕ) (s : gyro_shared) : gyro_shared :=
  if data 25 ≠ 13 ∨ data 26 ≠ 10 then s
  else if data 10 ≠ 0 then gyro_out_of_date s
  else
    let s1 := set_gyro s (rate_of (data 1) (data 2) (data 3))
                         (rate_of (data 4) (data 5) (data 6))
                         (rate_of (data 7) (data 8) (data 9))
    if data 17 = 0 then set_gyro_temp s1 (temp_of (data 11) (data 12)) else s1

/-! ## Mode registry (target_selecting.c lines 456-505) -/

/-- Modelled from the spec: the `mode_t` enumeration of mode.h is not in src;
the spec gives the smallest set {RESET, NORMAL} of distinct enumerators. -/
inductive mode_t where
  | reset
  | normal
  deriving DecidableEq, Repr

/-- The mode registry state: the single mutex-protected scalar. -/
structure mode_state where
  mode : mode_t
  deriving DecidableEq, Repr

/-- `init_mode` (lines 473-486): stores `normal` (the mutex initialisation is
I/O and omitted). -/
def init_mode : mode_state := { mode := mode_t.normal }

/-- `set_mode` (lines 488-494). -/
def set_mode (s : mode_state) (m : mode_t) : mode_state := { s with mode := m }

/-- `get_mode` (lines 496-505). -/
def get_mode (s : mode_state) : mode_t := s.mode

/-- The gyroscope thread's sampling-loop guard `get_mode() != RESET`
(src/unnamed/part_000 line 126): true when the thread enters / stays in the
active sampling loop rather than returning to idle. -/
def thread_enters_active (m : mode_t) : Bool := m ≠ mode_t.reset

/-! ## Concrete instances used by counterexamples and witnesses -/

/-- Zeroed per-axis control variables, as written by init_pid (lines 121-133). -/
def zero_vars : control_variables_t :=
  { current_position := 0, target_position := 0, position_error := 0,
    integral := 0, derivative := 0, pid_output := 0 }

/-- A control step with the default tracking gains (ki_az = 0.01,
ki_alt = 0.2), step_per_deg = 1 (so max_motor_ang = 35), timestep 1 and a
large altitude position error. -/
def c1_input : pid_input :=
  { spd := 1, ts := 1
    az_pid := track_az_pid_values, alt_pid := track_alt_pid_values
    az_prev := zero_vars, alt_prev := zero_vars, first := false
    cur_az := 0, cur_alt := 0, tgt_az := 0, tgt_alt := 1000 }

/-- A control step (step_per_deg = 1, so max_motor_ang = 35 and
max_change_rate = 5) whose altitude output exceeds +max_motor_ang before
saturation while the azimuth axis stays inside the bounds. -/
def c2_input : pid_input :=
  { spd := 1, ts := 1
    az_pid := { kp := 0, ki := 0, kd := 0 }
    alt_pid := { kp := 1, ki := 0, kd := 0 }
    az_prev := zero_vars
    alt_prev := { zero_vars with pid_output := 35 }
    first := false
    cur_az := 0, cur_alt := 0, tgt_az := 0, tgt_alt := 50 }

/-- A control step (step_per_deg = 100) with azimuth position error 0.015,
inside the deadband, whose azimuth output converts to 2 motor steps. -/
def c3_input : pid_input :=
  { spd := 100, ts := 1
    az_pid := { kp := 1, ki := 0, kd := 0 }
    alt_pid := { kp := 0, ki := 0, kd := 0 }
    az_prev := zero_vars, alt_prev := zero_vars, first := false
    cur_az := 0, cur_alt := 0, tgt_az := 0.015, tgt_alt := 0 }

/-- The C5 scenario: first step, zeroed previous state, kp = 1, ki = 0,
kd = 0, timestep 0.01, azimuth target 10, current 0. -/
def c5_input (spd : ℚ) : pid_input :=
  { spd := spd, ts := 0.01
    az_pid := { kp := 1, ki := 0, kd := 0 }
    alt_pid := { kp := 1, ki := 0, kd := 0 }
    az_prev := zero_vars, alt_prev := zero_vars, first := true
    cur_az := 0, cur_alt := 0, tgt_az := 10, tgt_alt := 0 }

/-- A well-framed datagram whose angular-rate quality byte (data[10]) is
non-zero. -/
def c7_data : ℕ → ℕ :=
  fun i => if i = 25 then 13 else if i = 26 then 10 else if i = 10 then 7 else 0

/-- A well-framed datagram with good rate quality but a bad temperature
quality byte (data[17] non-zero). -/
def c7_temp_data : ℕ → ℕ :=
  fun i => if i = 25 then 13 else if i = 26 then 10 else if i = 17 then 9 else 0

/-- A datagram whose two terminator bytes are both wrong. -/
def c8_data : ℕ → ℕ := fun _ => 0

/-- A shared gyroscope state holding a previous known-good reading. -/
def gyro_state0 : gyro_shared :=
  { gyro := { x := 1, y := 2, z := 3, out_of_date := false }, temp := 4 }

/-- A shared gyroscope state whose out-of-date flag is already set. -/
def gyro_state_stale : gyro_shared :=
  { gyro := { x := 5, y := 6, z := 7, out_of_date := true }, temp := 8 }

/-! ## General lemmas about the controller stages -/

/-- The rate limiter moves the output by at most `mcr` from the previous
output. -/
lemma rate_limit_abs_le (mcr p u : ℚ) (h : 0 ≤ mcr) : |rate_limit mcr p u - p| ≤ mcr := by
  unfold rate_limit
  split_ifs with h1 h2
  · have e : p + mcr - p = mcr := by ring
    rw [e, abs_of_nonneg h]
  · have e : p - mcr - p = -mcr := by ring
    rw [e, abs_neg, abs_of_nonneg h]
  · exact le_of_not_lt h1

/-- When the unclamped change exceeds `mcr`, the rate limiter pins the output
to the previous output plus or minus `mcr`, following the sign of change. -/
lemma rate_limit_clamp (mcr p u : ℚ) (h : |u - p| > mcr) :
    (u > p → rate_limit mcr p u = p + mcr) ∧ (u < p → rate_limit mcr p u = p - mcr) := by
  unfold rate_limit
  rw [if_pos h]
  exact ⟨fun hu => if_pos hu, fun hu => if_neg (not_lt.mpr hu.le)⟩

/-- A change within the limit passes through the rate limiter unchanged. -/
lemma rate_limit_id (mcr p u : ℚ) (h : |u - p| ≤ mcr) : rate_limit mcr p u = u := by
  unfold rate_limit
  rw [if_neg (not_lt.mpr h)]

/-- The azimuth saturation stage bounds the output by `maxAng` in magnitude. -/
lemma saturate_az_abs_le (maxAng out : ℚ) (h : 0 ≤ maxAng) :
    |(saturate_az maxAng out).1| ≤ maxAng := by
  unfold saturate_az
  split_ifs with h1 h2
  · show |maxAng| ≤ maxAng
    rw [abs_of_nonneg h]
  · show |(-maxAng)| ≤ maxAng
    rw [abs_neg, abs_of_nonneg h]
  · exact abs_le.mpr ⟨le_of_not_lt h2, le_of_not_lt h1⟩

/-- The altitude saturation stage bounds the output by `maxAng` in
magnitude. -/
lemma saturate_alt_abs_le (maxAng out : ℚ) (h : 0 ≤ maxAng) :
    |saturate_alt maxAng out| ≤ maxAng := by
  unfold saturate_alt
  split_ifs with h1 h2
  · rw [abs_of_nonneg h]
  · rw [abs_neg, abs_of_nonneg h]
  · exact abs_le.mpr ⟨le_of_not_lt h2, le_of_not_lt h1⟩

/-- The azimuth saturation code is 1 exactly on the positive bound, 2 exactly
on the negative bound, 0 otherwise. -/
lemma saturate_az_code (maxAng out : ℚ) (h : 0 ≤ maxAng) :
    ((saturate_az maxAng out).2 = 1 ↔ out > maxAng) ∧
    ((saturate_az maxAng out).2 = 2 ↔ out < -maxAng) ∧
    ((saturate_az maxAng out).2 = 0 ↔ ¬out > maxAng ∧ ¬out < -maxAng) := by
  unfold saturate_az
  split_ifs with h1 h2
  · have hno : ¬out < -maxAng := by push_neg; linarith
    norm_num [h1, hno]
  · norm_num [h1, h2]
  · norm_num [h1, h2]

/-- An output inside the bounds passes azimuth saturation unchanged with
code 0. -/
lemma saturate_az_id (maxAng out : ℚ) (h1 : out ≤ maxAng) (h2 : -maxAng ≤ out) :
    saturate_az maxAng out = (out, 0) := by
  unfold saturate_az
  rw [if_neg (not_lt.mpr h1), if_neg (not_lt.mpr h2)]

/-! ## Claim C1 -/

/-- C1 (code-bug evidence): the claim asserts that after anti-windup every
axis satisfies `|ki_axis * I| <= max_motor_angle` with that axis's own active
integral gain.  The source clamps the ALTITUDE integral with the AZIMUTH gain
set's ki (target_selecting.c lines 201 and 204), so with the default tracking
gains (ki_az = 0.01, ki_alt = 0.2) an altitude integral of 1000 passes the
clamp untouched (bound 35 / 0.01 = 3500) while `|ki_alt * I| = 200` exceeds
`max_motor_angle = 35`. -/
theorem c1_alt_windup_violation :
    (alt_windup c1_input).integral = 1000 ∧
    max_motor_ang c1_input.spd < |c1_input.alt_pid.ki * (alt_windup c1_input).integral| := by
  constructor
  · norm_num [alt_windup, alt_pass1, alt_prev_eff, motor_control_step, anti_windup,
      max_motor_ang, c1_input, track_az_pid_values, track_alt_pid_values, zero_vars]
  · norm_num [abs_of_nonneg, alt_windup, alt_pass1, alt_prev_eff, motor_control_step,
      anti_windup, max_motor_ang, c1_input, track_az_pid_values, track_alt_pid_values,
      zero_vars]

/-! ## Claim C2 -/

/-- C2 (counterexample): the claim asserts a recorded saturation code for BOTH
axes.  The source records only the single `threshold` variable, written only
by the azimuth saturation branch (lines 228-236); the altitude branch
(lines 240-244) records nothing.  At `c2_input` the altitude pre-clamp output
(40) exceeds `+max_motor_angle` (35), yet the recorded code is 0, not the
positive-bound code the claim requires for the altitude axis. -/
theorem c2_alt_code_counterexample :
    max_motor_ang c2_input.spd < (alt_rate c2_input).pid_output ∧
    az_threshold c2_input = 0 := by
  constructor <;>
    norm_num [abs_of_nonneg, az_threshold, az_rate, alt_rate, az_windup, alt_windup,
      az_pass1, alt_pass1, az_prev_eff, alt_prev_eff, motor_control_step, anti_windup,
      rate_limit, saturate_az, max_motor_ang, max_change_rate, zero_vars, c2_input]

/-- C2 (amended): after saturation both axes satisfy
`|pid_output| <= max_motor_angle`; the recorded saturation diagnostic code —
which exists only for the azimuth axis — is 1 exactly when the azimuth
pre-clamp output exceeded `+max_motor_angle`, 2 exactly when it was below
`-max_motor_angle`, and 0 otherwise.  The altitude axis records no code. -/
theorem c2_saturation_amended (inp : pid_input) (hspd : 0 < inp.spd) :
    |(az_sat inp).pid_output| ≤ max_motor_ang inp.spd ∧
    |(alt_sat inp).pid_output| ≤ max_motor_ang inp.spd ∧
    (az_threshold inp = 1 ↔ (az_rate inp).pid_output > max_motor_ang inp.spd) ∧
    (az_threshold inp = 2 ↔ (az_rate inp).pid_output < -max_motor_ang inp.spd) ∧
    (az_threshold inp = 0 ↔
      ¬(az_rate inp).pid_output > max_motor_ang inp.spd ∧
      ¬(az_rate inp).pid_output < -max_motor_ang inp.spd) := by
  have hmax : 0 ≤ max_motor_ang inp.spd := by
    show (0 : ℚ) ≤ 35 / inp.spd
    exact le_of_lt (div_pos (by norm_num) hspd)
  have h1 : (az_sat inp).pid_output =
      (saturate_az (max_motor_ang inp.spd) (az_rate inp).pid_output).1 := rfl
  have h2 : (alt_sat inp).pid_output =
      saturate_alt (max_motor_ang inp.spd) (alt_rate inp).pid_output := rfl
  have h3 : az_threshold inp =
      (saturate_az (max_motor_ang inp.spd) (az_rate inp).pid_output).2 := rfl
  rw [h1, h2, h3]
  exact ⟨saturate_az_abs_le _ _ hmax, saturate_alt_abs_le _ _ hmax,
    (saturate_az_code _ _ hmax).1, (saturate_az_code _ _ hmax).2.1,
    (saturate_az_code _ _ hmax).2.2⟩

/-- C2 witness: the amended saturation theorem applied at `c2_input`. -/
theorem c2_saturation_amended_witness :
    0 < c2_input.spd ∧ |(az_sat c2_input).pid_output| ≤ max_motor_ang c2_input.spd :=
  ⟨by norm_num [c2_input], (c2_saturation_amended c2_input (by norm_num [c2_input])).1⟩

/-! ## Claim C3 -/

/-- C3 (counterexample): the claim asserts that the deadband precedes the
steps conversion, so an in-deadband axis emits 0 motor steps.  The source
converts to steps at lines 251-252 and applies the deadband afterwards at
lines 255-262.  At `c3_input` the azimuth position error is 0.015 < 0.02, the
final (post-deadband) output is 0, yet the emitted azimuth step command is 2,
not 0. -/
theorem c3_deadband_counterexample :
    |(az_sat c3_input).position_error| < 0.02 ∧
    (pid_update c3_input).az.pid_output = 0 ∧
    (pid_update c3_input).motor.az = 2 := by
  refine ⟨?_, ?_, ?_⟩ <;>
    norm_num [abs_of_nonneg, Int.floor_eq_iff, pid_update, az_final, alt_final, motor_out,
      az_sat, alt_sat, az_threshold, az_rate, alt_rate, az_windup, alt_windup, az_pass1,
      alt_pass1, az_prev_eff, alt_prev_eff, motor_control_step, anti_windup, rate_limit,
      saturate_az, saturate_alt, lround, max_motor_ang, max_change_rate, zero_vars, c3_input]

/-- C3 (amended): per axis, if that axis's position error is below 0.02 in
magnitude, the stored final output of the step for that axis is forced to 0
after all other stages; but the steps conversion happens BEFORE the deadband,
so the emitted motor step command reflects the pre-deadband (post-saturation)
output and may be non-zero. -/
theorem c3_deadband_amended (inp : pid_input) :
    (|(az_sat inp).position_error| < 0.02 → (pid_update inp).az.pid_output = 0) ∧
    (|(alt_sat inp).position_error| < 0.02 → (pid_update inp).alt.pid_output = 0) ∧
    (pid_update inp).motor.az = lround (inp.spd * (az_sat inp).pid_output) ∧
    (pid_update inp).motor.alt = lround (inp.spd * (alt_sat inp).pid_output) := by
  refine ⟨?_, ?_, rfl, rfl⟩
  · intro haz
    show (az_final inp).pid_output = 0
    unfold az_final
    rw [if_pos haz]
  · intro halt
    show (alt_final inp).pid_output = 0
    unfold alt_final
    rw [if_pos halt]

/-- C3 witness: the amended deadband theorem applied at `c3_input`, with each
axis's deadband implication discharged from that axis's own hypothesis. -/
theorem c3_deadband_amended_witness :
    |(az_sat c3_input).position_error| < 0.02 ∧
    (pid_update c3_input).az.pid_output = 0 ∧
    |(alt_sat c3_input).position_error| < 0.02 ∧
    (pid_update c3_input).alt.pid_output = 0 := by
  have haz : |(az_sat c3_input).position_error| < 0.02 := by
    norm_num [abs_of_nonneg, az_sat, az_rate, az_windup, az_pass1, az_prev_eff,
      motor_control_step, anti_windup, rate_limit, saturate_az, max_motor_ang,
      max_change_rate, zero_vars, c3_input]
  have halt : |(alt_sat c3_input).position_error| < 0.02 := by
    norm_num [abs_of_nonneg, alt_sat, alt_rate, alt_windup, alt_pass1, alt_prev_eff,
      motor_control_step, anti_windup, rate_limit, saturate_alt, max_motor_ang,
      max_change_rate, zero_vars, c3_input]
  exact ⟨haz, (c3_deadband_amended c3_input).1 haz,
    halt, (c3_deadband_amended c3_input).2.1 halt⟩

/-! ## Claim C4 -/

/-- C4 (confirmed): after the rate-limiting stage of every control step, each
axis's output differs from the stored previous step's output by at most
`max_change_rate`; and when the unclamped change exceeded `max_change_rate`,
the clamped output equals the previous output plus or minus `max_change_rate`
with the sign of the change preserved. -/
theorem c4_rate_limit_bound (inp : pid_input) (hspd : 0 < inp.spd) :
    |(az_rate inp).pid_output - inp.az_prev.pid_output| ≤ max_change_rate inp.spd ∧
    |(alt_rate inp).pid_output - inp.alt_prev.pid_output| ≤ max_change_rate inp.spd ∧
    (|(az_windup inp).pid_output - inp.az_prev.pid_output| > max_change_rate inp.spd →
      ((az_windup inp).pid_output > inp.az_prev.pid_output →
        (az_rate inp).pid_output = inp.az_prev.pid_output + max_change_rate inp.spd) ∧
      ((az_windup inp).pid_output < inp.az_prev.pid_output →
        (az_rate inp).pid_output = inp.az_prev.pid_output - max_change_rate inp.spd)) ∧
    (|(alt_windup inp).pid_output - inp.alt_prev.pid_output| > max_change_rate inp.spd →
      ((alt_windup inp).pid_output > inp.alt_prev.pid_output →
        (alt_rate inp).pid_output = inp.alt_prev.pid_output + max_change_rate inp.spd) ∧
      ((alt_windup inp).pid_output < inp.alt_prev.pid_output →
        (alt_rate inp).pid_output = inp.alt_prev.pid_output - max_change_rate inp.spd)) := by
  have hmcr : 0 ≤ max_change_rate inp.spd := by
    show (0 : ℚ) ≤ 5 / inp.spd
    exact le_of_lt (div_pos (by norm_num) hspd)
  have haz : (az_rate inp).pid_output =
      rate_limit (max_change_rate inp.spd) inp.az_prev.pid_output
        (az_windup inp).pid_output := rfl
  have halt : (alt_rate inp).pid_output =
      rate_limit (max_change_rate inp.spd) inp.alt_prev.pid_output
        (alt_windup inp).pid_output := rfl
  rw [haz, halt]
  exact ⟨rate_limit_abs_le _ _ _ hmcr, rate_limit_abs_le _ _ _ hmcr,
    fun h => rate_limit_clamp _ _ _ h, fun h => rate_limit_clamp _ _ _ h⟩

/-- C4 witness: the rate-limit bound applied at the concrete step `c2_input`
(whose altitude change is in fact clamped). -/
theorem c4_rate_limit_bound_witness :
    0 < c2_input.spd ∧
    |(alt_rate c2_input).pid_output - c2_input.alt_prev.pid_output| ≤
      max_change_rate c2_input.spd :=
  ⟨by norm_num [c2_input], (c4_rate_limit_bound c2_input (by norm_num [c2_input])).2.1⟩

/-! ## Claim C5 -/

/-- C5 (counterexample): the claim asserts that the scenario's first-step
integral accumulator is 0 and the output is 10 whenever 10 does not exceed
`max_motor_angle`.  With step_per_deg = 1, `max_motor_angle = 35 >= 10`, yet
the code yields integral = error * timestep = 0.1, not 0, and the rate limiter
(`max_change_rate = 5`) clamps the output to 5, not 10; the emitted azimuth
step command is 5. -/
theorem c5_scenario_counterexample :
    (pid_update (c5_input 1)).az.integral = 1 / 10 ∧
    (1 : ℚ) / 10 ≠ 0 ∧
    (10 : ℚ) ≤ max_motor_ang (c5_input 1).spd ∧
    (pid_update (c5_input 1)).az.pid_output = 5 ∧
    (pid_update (c5_input 1)).motor.az = 5 := by
  refine ⟨?_, by norm_num, ?_, ?_, ?_⟩ <;>
    norm_num [abs_of_nonneg, Int.floor_eq_iff, pid_update, az_final, alt_final, motor_out,
      az_sat, alt_sat, az_threshold, az_rate, alt_rate, az_windup, alt_windup, az_pass1,
      alt_pass1, az_prev_eff, alt_prev_eff, motor_control_step, anti_windup, rate_limit,
      saturate_az, saturate_alt, lround, max_motor_ang, max_change_rate, zero_vars, c5_input]

/-- C5 (amended): in the scenario (first step, zeroed previous state, kp = 1,
ki = 0, kd = 0, timestep 0.01, target 10, current 0) the integral ACCUMULATOR
becomes error * timestep = 0.1 while the integral contribution ki * I is 0;
the raw PID output is 10; and provided 10 does not exceed `max_change_rate`
(the stage the original claim overlooks) nor `max_motor_angle`, the final
output stays 10 and the emitted azimuth command is
`lround(step_per_deg * 10)`. -/
theorem c5_scenario_amended (spd : ℚ) (hspd : 0 < spd)
    (hrate : (10 : ℚ) ≤ max_change_rate spd) (hang : (10 : ℚ) ≤ max_motor_ang spd) :
    (az_pass1 (c5_input spd)).integral = 1 / 10 ∧
    (c5_input spd).az_pid.ki * (az_pass1 (c5_input spd)).integral = 0 ∧
    (az_pass1 (c5_input spd)).pid_output = 10 ∧
    (pid_update (c5_input spd)).az.pid_output = 10 ∧
    (pid_update (c5_input spd)).motor.az = lround (spd * 10) := by
  have h1 : az_pass1 (c5_input spd) =
      { current_position := 0, target_position := 10, position_error := 10,
        integral := 1 / 10, derivative := 1000, pid_output := 10 } := by
    norm_num [az_pass1, az_prev_eff, motor_control_step, c5_input, zero_vars]
  have h2 : az_windup (c5_input spd) =
      { current_position := 0, target_position := 10, position_error := 10,
        integral := 1 / 10, derivative := 1000, pid_output := 10 } := by
    unfold az_windup
    rw [h1]
    norm_num [anti_windup, c5_input]
  have hrl : rate_limit (max_change_rate spd) 0 10 = 10 :=
    rate_limit_id _ _ _ (by simpa using hrate)
  have h3 : az_rate (c5_input spd) =
      { current_position := 0, target_position := 10, position_error := 10,
        integral := 1 / 10, derivative := 1000, pid_output := 10 } := by
    unfold az_rate
    rw [h2]
    simp only [c5_input, zero_vars]
    rw [hrl]
  have hang0 : (0 : ℚ) < max_motor_ang spd := by linarith
  have hsat : saturate_az (max_motor_ang spd) 10 = (10, 0) :=
    saturate_az_id _ _ hang (by linarith)
  have h4 : az_sat (c5_input spd) =
      { current_position := 0, target_position := 10, position_error := 10,
        integral := 1 / 10, derivative := 1000, pid_output := 10 } := by
    unfold az_sat
    rw [h3]
    simp only [c5_input]
    rw [hsat]
  have h5 : az_final (c5_input spd) =
      { current_position := 0, target_position := 10, position_error := 10,
        integral := 1 / 10, derivative := 1000, pid_output := 10 } := by
    unfold az_final
    rw [h4]
    norm_num
  refine ⟨by rw [h1], ?_, by rw [h1], ?_, ?_⟩
  · rw [h1]
    norm_num [c5_input]
  · show (az_final (c5_input spd)).pid_output = 10
    rw [h5]
  · show lround ((c5_input spd).spd * (az_sat (c5_input spd)).pid_output) = lround (spd * 10)
    rw [h4]
    norm_num [c5_input]

/-- C5 witness: the amended scenario theorem applied at step_per_deg = 1/2,
where `max_change_rate = 10` and `max_motor_angle = 70`. -/
theorem c5_scenario_amended_witness :
    (0 : ℚ) < 1 / 2 ∧ (10 : ℚ) ≤ max_change_rate (1 / 2) ∧
    (10 : ℚ) ≤ max_motor_ang (1 / 2) ∧
    (pid_update (c5_input (1 / 2))).motor.az = lround ((1 / 2 : ℚ) * 10) :=
  ⟨by norm_num, by norm_num [max_change_rate], by norm_num [max_motor_ang],
    (c5_scenario_amended (1 / 2) (by norm_num) (by norm_num [max_change_rate])
      (by norm_num [max_motor_ang])).2.2.2.2⟩

/-! ## Claim C6 -/

set_option maxRecDepth 4096 in
/-- For a byte below 256, testing bit 7 with a mask equals comparing with
128. -/
lemma and128_iff : ∀ b, b < 256 → ((b &&& 128 ≠ 0) ↔ 128 ≤ b) := by decide

/-- C6 (confirmed): decoding the three datagram bytes of a signed 24-bit
sample with the gyroscope poller's byte reassembly and sign extension
reproduces the original signed integer: `decode_channel` is a left inverse of
`encode24` on [-2^23, 2^23). -/
theorem c6_decode24_roundtrip (v : ℤ) (h1 : -(2 ^ 23) ≤ v) (h2 : v < 2 ^ 23) :
    decode_channel (encode24 v).1 (encode24 v).2.1 (encode24 v).2.2 = v := by
  have hmod_nonneg : 0 ≤ v % 2 ^ 24 := Int.emod_nonneg v (by norm_num)
  have hmod_lt : v % 2 ^ 24 < 2 ^ 24 := Int.emod_lt_of_pos v (by norm_num)
  set n : ℕ := (v % 2 ^ 24).toNat with hn
  have hnz : (n : ℤ) = v % 2 ^ 24 := Int.toNat_of_nonneg hmod_nonneg
  have hnlt : n < 2 ^ 24 := by omega
  have he : encode24 v = (n / 65536, n / 256 % 256, n % 256) := rfl
  rw [he]
  unfold decode_channel toInt32 sign_ext_byte
  have hb : n / 65536 < 256 := by omega
  simp only [and128_iff _ hb]
  by_cases hc : 128 ≤ n / 65536
  · simp only [if_pos hc]
    split_ifs with hlt <;> omega
  · simp only [if_neg hc]
    split_ifs with hlt <;> omega

/-- C6 witness: round trip of the concrete sample -5. -/
theorem c6_decode24_roundtrip_witness :
    -(2 ^ 23) ≤ (-5 : ℤ) ∧ (-5 : ℤ) < 2 ^ 23 ∧
    decode_channel (encode24 (-5)).1 (encode24 (-5)).2.1 (encode24 (-5)).2.2 = -5 :=
  ⟨by norm_num, by norm_num, c6_decode24_roundtrip (-5) (by norm_num) (by norm_num)⟩

/-! ## Claim C7 -/

/-- C7 (confirmed): for a well-framed datagram, a non-zero angular-rate
quality byte (data[10]) aborts the cycle before decoding — the rate fields
keep their previous values, the out-of-date flag is set and the temperature is
untouched; a zero rate-quality byte with a non-zero temperature quality byte
(data[17]) still decodes and publishes all three rates (clearing the
out-of-date flag) and only skips the temperature update. -/
theorem c7_quality_byte_handling (data : ℕ → ℕ) (s : gyro_shared)
    (h25 : data 25 = 13) (h26 : data 26 = 10) :
    (data 10 ≠ 0 →
      (active_m data s).gyro.x = s.gyro.x ∧
      (active_m data s).gyro.y = s.gyro.y ∧
      (active_m data s).gyro.z = s.gyro.z ∧
      (active_m data s).gyro.out_of_date = true ∧
      (active_m data s).temp = s.temp) ∧
    (data 10 = 0 → data 17 ≠ 0 →
      (active_m data s).gyro.x = rate_of (data 1) (data 2) (data 3) ∧
      (active_m data s).gyro.y = rate_of (data 4) (data 5) (data 6) ∧
      (active_m data s).gyro.z = rate_of (data 7) (data 8) (data 9) ∧
      (active_m data s).gyro.out_of_date = false ∧
      (active_m data s).temp = s.temp) := by
  constructor
  · intro h10
    simp [active_m, h25, h26, h10, gyro_out_of_date]
  · intro h10 h17
    simp [active_m, h25, h26, h10, h17, set_gyro]

/-- C7 witness: the quality-byte theorem applied to a concrete datagram with a
bad rate-quality byte and to one with a bad temperature-quality byte. -/
theorem c7_quality_byte_handling_witness :
    c7_data 10 ≠ 0 ∧ (active_m c7_data gyro_state0).gyro.out_of_date = true ∧
    c7_temp_data 17 ≠ 0 ∧ (active_m c7_temp_data gyro_state0).gyro.out_of_date = false ∧
    (active_m c7_temp_data gyro_state0).temp = gyro_state0.temp :=
  ⟨by decide,
    ((c7_quality_byte_handling c7_data gyro_state0 rfl rfl).1 (by decide)).2.2.2.1,
    by decide,
    ((c7_quality_byte_handling c7_temp_data gyro_state0 rfl rfl).2 rfl (by decide)).2.2.2.1,
    ((c7_quality_byte_handling c7_temp_data gyro_state0 rfl rfl).2 rfl (by decide)).2.2.2.2⟩

/-! ## Claim C8 -/

/-- C8 (confirmed): a datagram whose two terminator bytes are not CR LF aborts
the sampling cycle with no state change at all — the shared reading's fields
and the out-of-date flag (in whatever state it was) are untouched. -/
theorem c8_bad_terminator_no_change (data : ℕ → ℕ) (s : gyro_shared)
    (h : ¬(data 25 = 13 ∧ data 26 = 10)) :
    active_m data s = s := by
  have h' : data 25 ≠ 13 ∨ data 26 ≠ 10 := by tauto
  unfold active_m
  rw [if_pos h']

/-- C8 witness: a zero-filled datagram leaves an already-stale shared reading
exactly as it was, out-of-date flag included. -/
theorem c8_bad_terminator_no_change_witness :
    ¬(c8_data 25 = 13 ∧ c8_data 26 = 10) ∧
    active_m c8_data gyro_state_stale = gyro_state_stale ∧
    (active_m c8_data gyro_state_stale).gyro.out_of_date = true :=
  ⟨by decide, c8_bad_terminator_no_change c8_data gyro_state_stale (by decide),
    by rw [c8_bad_terminator_no_change c8_data gyro_state_stale (by decide)]; rfl⟩

/-! ## Claim C9 -/

/-- C9 (confirmed): from any gain-store state — including one whose active
gain sets were transiently overridden through `change_pid_values` — the
regime-transition call with the tracking direction (0) makes each axis's
active gains exactly the stored tracking gains, and symmetrically for
stabilization (1); a second identical call leaves the active gains identical,
and stabilization-then-tracking restores exactly the stored tracking gains. -/
theorem c9_regime_transition (g : gain_store) (p i d : ℚ) :
    ((change_stabilization_mode 0 g).1.current_az = g.track_az ∧
     (change_stabilization_mode 0 g).1.current_alt = g.track_alt) ∧
    ((change_stabilization_mode 1 g).1.current_az = g.stab_az ∧
     (change_stabilization_mode 1 g).1.current_alt = g.stab_alt) ∧
    (change_stabilization_mode 0 (change_pid_values 1 p i d g).1).1.current_az =
      g.track_az ∧
    ((change_stabilization_mode 0 (change_stabilization_mode 0 g).1).1.current_az =
      (change_stabilization_mode 0 g).1.current_az ∧
     (change_stabilization_mode 0 (change_stabilization_mode 0 g).1).1.current_alt =
      (change_stabilization_mode 0 g).1.current_alt) ∧
    ((change_stabilization_mode 0 (change_stabilization_mode 1 g).1).1.current_az =
      g.track_az ∧
     (change_stabilization_mode 0 (change_stabilization_mode 1 g).1).1.current_alt =
      g.track_alt) := by
  norm_num [change_stabilization_mode, change_pid_values]

/-! ## Claim C10 -/

/-- C10 (confirmed): after `init_mode` the registry holds NORMAL, not RESET,
and `get_mode` returns NORMAL, so the sensor-channel thread's loop guard
`get_mode() != RESET` holds and a thread woken before any mode command enters
its active sampling loop. -/
theorem c10_init_mode_normal :
    get_mode init_mode = mode_t.normal ∧
    mode_t.normal ≠ mode_t.reset ∧
    thread_enters_active (get_mode init_mode) = true := by
  refine ⟨rfl, by decide, by decide⟩

end IRISC
